import Mathlib

/-!
Verification of the OpenDevin per-session orchestration layer
(`opendevin/server/agent/agent.py` and `opendevin/events/action/action.py`).

The Python code is shallowly embedded: each method becomes a pure Lean
function from its inputs (and the relevant session fields) to a record of
its observable effects — events published on the session's EventStream
(with their source tag), error messages sent to the client, transport
sends, the controller handle afterwards, and any exception that escapes.
External collaborators (configuration lookup, the LLM and controller
constructors) are passed in as function parameters.
-/

namespace OpenDevin

/-- Agent lifecycle states. Modelled from the spec: the `AgentState`
enumeration (`INIT, RUNNING, PAUSED, STOPPED, AWAITING_USER_INPUT, FINISHED`);
the schema module defining it is not among the sources in scope. -/
inductive AgentState
  | INIT
  | RUNNING
  | PAUSED
  | STOPPED
  | AWAITING_USER_INPUT
  | FINISHED
deriving DecidableEq, Repr

/-- JSON-like values: the payloads of requests and events are string-keyed
mappings whose values are strings or nested mappings. -/
inductive JValue
  | str (s : String)
  | obj (fields : List (String × JValue))
deriving Repr

/-- A Python dict of event/request fields, as an ordered association list
(Python dicts preserve insertion order; keys are unique). -/
abbrev Fields := List (String × JValue)

/-- The events that flow on a session's EventStream: `NullAction`,
`NullObservation`, `AgentStateChangedObservation(content, agent_state)`,
and typed actions carrying their field mapping. -/
inductive Event
  | nullAction
  | nullObservation
  | agentStateChanged (content : String) (state : AgentState)
  | action (fields : Fields)
deriving Repr

/-- An event as published on the EventStream, paired with the source tag
that `add_event` stamps on it (`"user"` or `"agent"`). -/
abbrev Published := Event × String

/-- `VALID_TASK_STATE_MAP` from `agent.py`: new task state to valid old task
states. The Python call sites read it with `.get(new_state, [])`, so the
dictionary and that default are folded into one total function. -/
def VALID_TASK_STATE_MAP : AgentState → List AgentState
  | .PAUSED => [.RUNNING]
  | .RUNNING => [.PAUSED]
  | .STOPPED => [.RUNNING, .PAUSED, .AWAITING_USER_INPUT]
  | _ => []

/-- `IGNORED_TASK_STATE_MAP` from `agent.py`, with the call sites'
`.get(new_state, [])` default folded in. -/
def IGNORED_TASK_STATE_MAP : AgentState → List AgentState
  | .PAUSED => [.INIT, .PAUSED, .STOPPED, .FINISHED, .AWAITING_USER_INPUT]
  | .RUNNING => [.INIT, .RUNNING, .STOPPED, .FINISHED, .AWAITING_USER_INPUT]
  | .STOPPED => [.INIT, .STOPPED, .FINISHED]
  | _ => []

/-- `AgentUnit.set_agent_state`. The controller handle is represented by the
state its `get_agent_state()` returns (`none` when `self.controller is None`).
The result is the pair (events published on the EventStream, error messages
sent to the client), in order. -/
def set_agent_state (controller : Option AgentState) (new_state : AgentState) :
    List Published × List String :=
  match controller with
  | none => ([], ["No agent started."])
  | some cur_state =>
    if cur_state ∈ VALID_TASK_STATE_MAP new_state then
      ([(Event.agentStateChanged "" new_state, "user")], [])
    else if cur_state ∈ IGNORED_TASK_STATE_MAP new_state then
      ([(Event.agentStateChanged "" new_state, "user")], [])
    else
      ([], ["Current task state not recognized."])

/-- `dict.get(key)` on a field mapping: the value at the first (unique)
occurrence of the key, or `none`. -/
def dictGet : Fields → String → Option JValue
  | [], _ => none
  | (a, b) :: t, k => if a = k then some b else dictGet t k

/-- Python `d[k] = v` on a dict: replace the value at the existing key in
place (insertion order kept), or append the new key at the end. -/
def dictSet : Fields → String → JValue → Fields
  | [], k, v => [(k, v)]
  | (a, b) :: t, k, v => if a = k then (a, v) :: t else (a, b) :: dictSet t k v

/-- `Event.to_memory` for a dataclass instance. Modelled from the spec: the
instance's field mapping (the base-class serializer, outside the sources in
scope, returns the raw field set). An Action instance is represented by that
field mapping. -/
def Event.to_memory (fields : Fields) : Fields := fields

/-- `Action.to_memory` from `action.py`: take the base field mapping, pop the
`action` discriminator (a missing discriminator raises, i.e. is an internal
contract error, carried here as `Except.error`), and wrap the remaining
fields as `args`. -/
def Action.to_memory (fields : Fields) : Except String JValue :=
  match dictGet (Event.to_memory fields) "action" with
  | none => .error "does not have action attribute set"
  | some v =>
    .ok (.obj [("action", v),
      ("args", .obj ((Event.to_memory fields).filter (fun p => p.1 ≠ "action")))])

/-- The entries of the `args` sub-mapping of a wire mapping (empty when
absent or not a mapping). -/
def argsEntries (d : Fields) : Fields :=
  match dictGet d "args" with
  | some (JValue.obj a) => a
  | _ => []

/-- `action_from_dict`. Modelled from the spec: constructing a typed Action
from the wire mapping (keys `action` and `args`) resolves the discriminator and
unpacks the entries of `args` as the instance's fields, alongside the
discriminator; a mapping without a discriminator cannot construct an Action. -/
def action_from_dict (d : Fields) : Except String Fields :=
  match dictGet d "action" with
  | none => .error "action not found"
  | some v => .ok (argsEntries d ++ [("action", v)])

/-- `ActionType.INIT`, the special-cased top-level action name. Modelled from
the spec (the schema module is not among the sources in scope). -/
def ActionType.INIT : String := "initialize"

/-- The observable outcome of one `AgentUnit.dispatch` call: error messages
sent to the client, events published on the EventStream, whether the call was
delegated to `create_controller` (and with which start event), the value of
the caller's `data` mapping after the call, and any exception escaping. -/
structure DispatchOut where
  errors : List String
  events : List Published
  initCalled : Option Fields
  dataAfter : Fields
  uncaught : Option String
deriving Repr

/-- `AgentUnit.dispatch(action, data)`: `None` is rejected with "Invalid
action"; `ActionType.INIT` delegates to `create_controller(data)`; any other
name builds `action_dict` as a copy of `data` with `action` set, constructs a
typed Action from it and publishes it with source `"user"`. -/
def dispatch (action : Option String) (data : Fields) : DispatchOut :=
  match action with
  | none =>
    { errors := ["Invalid action"], events := [], initCalled := none,
      dataAfter := data, uncaught := none }
  | some a =>
    if a = ActionType.INIT then
      { errors := [], events := [], initCalled := some data,
        dataAfter := data, uncaught := none }
    else
      let action_dict := dictSet data "action" (JValue.str a)
      match action_from_dict action_dict with
      | .ok f =>
        { errors := [], events := [(Event.action f, "user")], initCalled := none,
          dataAfter := data, uncaught := none }
      | .error e =>
        { errors := [], events := [], initCalled := none,
          dataAfter := data, uncaught := some e }

lemma dictGet_dictSet_same (d : Fields) (k : String) (v : JValue) :
    dictGet (dictSet d k v) k = some v := by
  induction d with
  | nil => simp [dictSet, dictGet]
  | cons p t ih =>
    obtain ⟨a, b⟩ := p
    by_cases h : a = k
    · simp [dictSet, dictGet, h]
    · simp [dictSet, dictGet, h, ih]

lemma dictGet_dictSet_other (d : Fields) (k k2 : String) (v : JValue)
    (h : k2 ≠ k) : dictGet (dictSet d k v) k2 = dictGet d k2 := by
  induction d with
  | nil => simp [dictSet, dictGet, Ne.symm h]
  | cons p t ih =>
    obtain ⟨a, b⟩ := p
    by_cases ha : a = k
    · subst ha
      simp [dictSet, dictGet, Ne.symm h]
    · by_cases ha2 : a = k2 <;> simp [dictSet, dictGet, ha, ha2, h, ih]

/-- Claim C1: for a requested `new_state` among PAUSED, RUNNING, STOPPED, when
a controller exists and its current state is in `VALID_TASK_STATE_MAP[new_state]`,
`set_agent_state` publishes exactly one `AgentStateChanged(new_state)` event
tagged source `"user"` and sends no error. -/
theorem set_agent_state_valid_branch (cur new_state : AgentState)
    (hn : new_state ∈ [AgentState.PAUSED, AgentState.RUNNING, AgentState.STOPPED])
    (hc : cur ∈ VALID_TASK_STATE_MAP new_state) :
    set_agent_state (some cur) new_state =
      ([(Event.agentStateChanged "" new_state, "user")], []) := by
  cases new_state <;> cases cur <;>
    first
      | rfl
      | exact absurd hc (by decide)
      | exact absurd hn (by decide)

/-- Witness for C1: the RUNNING → PAUSED transition is valid and publishes the
single state-changed event. -/
theorem set_agent_state_valid_branch_witness :
    set_agent_state (some AgentState.RUNNING) AgentState.PAUSED =
      ([(Event.agentStateChanged "" AgentState.PAUSED, "user")], []) :=
  set_agent_state_valid_branch AgentState.RUNNING AgentState.PAUSED
    (by decide) (by decide)

/-- Claim C2: when the controller's current state is in
`IGNORED_TASK_STATE_MAP[new_state]`, `set_agent_state` publishes exactly one
`AgentStateChanged(new_state)` event tagged source `"user"`, sends no error,
and its whole observable outcome coincides with that of any valid-branch run
for the same `new_state`: the two branches are observably equivalent. -/
theorem set_agent_state_ignored_branch (cur new_state : AgentState)
    (hc : cur ∈ IGNORED_TASK_STATE_MAP new_state) :
    set_agent_state (some cur) new_state =
      ([(Event.agentStateChanged "" new_state, "user")], []) ∧
    ∀ cur2 ∈ VALID_TASK_STATE_MAP new_state,
      set_agent_state (some cur) new_state =
        set_agent_state (some cur2) new_state := by
  refine ⟨?_, ?_⟩
  · cases new_state <;> cases cur <;>
      first
        | rfl
        | exact absurd hc (by decide)
  · intro cur2 hc2
    cases new_state <;> cases cur <;> cases cur2 <;>
      first
        | rfl
        | exact absurd hc (by decide)
        | exact absurd hc2 (by decide)

/-- Witness for C2: requesting PAUSED while already PAUSED is ignored, yet
publishes the identical event the valid RUNNING → PAUSED run publishes. -/
theorem set_agent_state_ignored_branch_witness :
    set_agent_state (some AgentState.PAUSED) AgentState.PAUSED =
      ([(Event.agentStateChanged "" AgentState.PAUSED, "user")], []) ∧
    ∀ cur2 ∈ VALID_TASK_STATE_MAP AgentState.PAUSED,
      set_agent_state (some AgentState.PAUSED) AgentState.PAUSED =
        set_agent_state (some cur2) AgentState.PAUSED :=
  set_agent_state_ignored_branch AgentState.PAUSED AgentState.PAUSED (by decide)

/-- Claim C3: `set_agent_state` publishes no event and sends exactly one error
when its preconditions fail: with no controller it sends "No agent started.",
and with a controller whose current state is in neither table for the requested
`new_state` it sends "Current task state not recognized.". -/
theorem set_agent_state_error_branch (cur new_state : AgentState) :
    set_agent_state none new_state = ([], ["No agent started."]) ∧
    (cur ∉ VALID_TASK_STATE_MAP new_state →
      cur ∉ IGNORED_TASK_STATE_MAP new_state →
      set_agent_state (some cur) new_state =
        ([], ["Current task state not recognized."])) := by
  refine ⟨rfl, fun hv hi => ?_⟩
  cases new_state <;> cases cur <;>
    first
      | rfl
      | exact absurd (by decide) hv
      | exact absurd (by decide) hi

/-- Witness for C3: requesting INIT (absent from both tables) while RUNNING
falls through to the error branch, and a session with no controller reports
"No agent started.". -/
theorem set_agent_state_error_branch_witness :
    set_agent_state none AgentState.INIT = ([], ["No agent started."]) ∧
    set_agent_state (some AgentState.RUNNING) AgentState.INIT =
      ([], ["Current task state not recognized."]) :=
  ⟨(set_agent_state_error_branch AgentState.RUNNING AgentState.INIT).1,
   (set_agent_state_error_branch AgentState.RUNNING AgentState.INIT).2
     (by decide) (by decide)⟩

lemma action_from_dict_dictSet (data : Fields) (a : String) :
    action_from_dict (dictSet data "action" (JValue.str a)) =
      .ok (argsEntries data ++ [("action", JValue.str a)]) := by
  have h1 := dictGet_dictSet_same data "action" (JValue.str a)
  have h2 : argsEntries (dictSet data "action" (JValue.str a)) =
      argsEntries data := by
    unfold argsEntries
    rw [dictGet_dictSet_other data "action" "args" (JValue.str a) (by decide)]
  simp [action_from_dict, h1, h2]

/-- Counterexample to claim C5: `dispatch` with the empty-string action name
does not report "Invalid action"; the `None` check does not catch it, so the
request falls through to generic dispatch and an event is published. -/
theorem dispatch_empty_name_cex :
    (dispatch (some "") [("args", JValue.obj [])]).errors = [] ∧
    (dispatch (some "") [("args", JValue.obj [])]).events =
      [(Event.action [("action", JValue.str "")], "user")] :=
  ⟨rfl, rfl⟩

/-- Claim C5 (amended): for every call `dispatch(action_name, data)` where
`action_name` is absent (`None`), the orchestrator reports "Invalid action"
to the client and publishes no event; an empty-string `action_name` is not
caught by this check and is dispatched as a generic action instead. -/
theorem dispatch_none_invalid (data : Fields) :
    dispatch none data =
      { errors := ["Invalid action"], events := [], initCalled := none,
        dataAfter := data, uncaught := none } ∧
    (dispatch (some "") data).errors = [] :=
  ⟨rfl, by simp [dispatch, ActionType.INIT, action_from_dict_dictSet]⟩

/-- Claim C10: for every non-`None`, non-INIT action name, `dispatch` leaves
the caller's `data` mapping unchanged: the typed Action is built from a copy
of `data` with the `action` discriminator added, published once with source
`"user"`, and no error or bootstrap is triggered. -/
theorem dispatch_generic_frame (a : String) (data : Fields)
    (h : a ≠ ActionType.INIT) :
    (dispatch (some a) data).dataAfter = data ∧
    (dispatch (some a) data).errors = [] ∧
    (dispatch (some a) data).initCalled = none ∧
    (dispatch (some a) data).uncaught = none ∧
    (dispatch (some a) data).events =
      [(Event.action (argsEntries data ++ [("action", JValue.str a)]),
        "user")] := by
  simp [dispatch, h, action_from_dict_dictSet]

/-- Witness for C10: dispatching a concrete "run" request leaves the data
mapping intact and publishes the typed action built from its copy. -/
theorem dispatch_generic_frame_witness :
    (dispatch (some "run")
        [("args", JValue.obj [("cmd", JValue.str "ls")])]).dataAfter =
      [("args", JValue.obj [("cmd", JValue.str "ls")])] ∧
    (dispatch (some "run")
        [("args", JValue.obj [("cmd", JValue.str "ls")])]).errors = [] ∧
    (dispatch (some "run")
        [("args", JValue.obj [("cmd", JValue.str "ls")])]).initCalled = none ∧
    (dispatch (some "run")
        [("args", JValue.obj [("cmd", JValue.str "ls")])]).uncaught = none ∧
    (dispatch (some "run")
        [("args", JValue.obj [("cmd", JValue.str "ls")])]).events =
      [(Event.action [("cmd", JValue.str "ls"), ("action", JValue.str "run")],
        "user")] :=
  dispatch_generic_frame "run" [("args", JValue.obj [("cmd", JValue.str "ls")])]
    (by decide)

/-- Claim C9: for every Action whose field set contains the `action`
discriminator, the wire form is the discriminator pulled out and every other
field wrapped under `args`; constructing an Action from the wire mapping with
action "run" and args mapping cmd to "ls" and converting back reproduces that
wire mapping exactly; and an Action lacking the discriminator fails with an
internal-contract error. -/
theorem action_to_memory_contract :
    (∀ fields v, dictGet fields "action" = some v →
      Action.to_memory fields =
        .ok (.obj [("action", v),
          ("args", .obj (fields.filter (fun p => p.1 ≠ "action")))])) ∧
    (action_from_dict [("action", JValue.str "run"),
        ("args", JValue.obj [("cmd", JValue.str "ls")])] =
      .ok [("cmd", JValue.str "ls"), ("action", JValue.str "run")] ∧
     Action.to_memory [("cmd", JValue.str "ls"), ("action", JValue.str "run")] =
      .ok (.obj [("action", JValue.str "run"),
        ("args", JValue.obj [("cmd", JValue.str "ls")])])) ∧
    (∀ fields, dictGet fields "action" = none →
      Action.to_memory fields = .error "does not have action attribute set") := by
  refine ⟨fun fields v h => ?_, ⟨rfl, rfl⟩, fun fields h => ?_⟩
  · simp [Action.to_memory, Event.to_memory, h]
  · simp [Action.to_memory, Event.to_memory, h]

/-- Witness for C9: a field set holding only the discriminator serializes to
an empty `args` mapping, and the empty field set fails serialization. -/
theorem action_to_memory_contract_witness :
    Action.to_memory [("action", JValue.str "run")] =
      .ok (.obj [("action", JValue.str "run"), ("args", JValue.obj [])]) ∧
    Action.to_memory [] = .error "does not have action attribute set" :=
  ⟨action_to_memory_contract.1 [("action", JValue.str "run")]
      (JValue.str "run") rfl,
   action_to_memory_contract.2.2 [] rfl⟩

/-- Wire name of an agent state. Modelled from the spec wire conventions. -/
def AgentState.wireName : AgentState → String
  | .INIT => "init"
  | .RUNNING => "running"
  | .PAUSED => "paused"
  | .STOPPED => "stopped"
  | .AWAITING_USER_INPUT => "awaiting_user_input"
  | .FINISHED => "finished"

/-- `Event.to_dict`, the wire form sent to the client transport. Modelled from
the spec: the discriminator together with the remaining payload. -/
def Event.to_dict : Event → JValue
  | .nullAction => .obj [("action", .str "null"), ("args", .obj [])]
  | .nullObservation =>
    .obj [("observation", .str "null"), ("content", .str "")]
  | .agentStateChanged content state =>
    .obj [("observation", .str "agent_state_changed"),
      ("content", .str content),
      ("extras", .obj [("agent_state", .str state.wireName)])]
  | .action fields =>
    match Action.to_memory fields with
    | .ok w => w
    | .error _ => .obj []

/-- `AgentUnit.on_event(event)`: the orchestrator's own EventStream
subscription. `source` is the tag stamped on the event at publication. The
result is the list of wire payloads sent to the client transport. -/
def on_event (event : Event) (source : String) : List JValue :=
  match event with
  | .nullAction => []
  | .nullObservation => []
  | e => if source = "agent" then [Event.to_dict e] else []

/-- Claim C7: a `NullAction` or `NullObservation` is discarded and never
forwarded; any other event with source "agent" is forwarded in wire form
exactly once; any other event whose source is not "agent" is not forwarded. -/
theorem on_event_filter :
    (∀ s, on_event Event.nullAction s = [] ∧
      on_event Event.nullObservation s = []) ∧
    (∀ e : Event, e ≠ Event.nullAction → e ≠ Event.nullObservation →
      on_event e "agent" = [Event.to_dict e]) ∧
    (∀ (e : Event) (s : String), s ≠ "agent" → on_event e s = []) := by
  refine ⟨fun s => ⟨rfl, rfl⟩, fun e h1 h2 => ?_, fun e s hs => ?_⟩
  · cases e with
    | nullAction => exact absurd rfl h1
    | nullObservation => exact absurd rfl h2
    | agentStateChanged c st => simp [on_event]
    | action f => simp [on_event]
  · cases e <;> simp [on_event, hs]

/-- Witness for C7: a concrete state-changed event is forwarded when tagged
"agent" and suppressed when tagged "user". -/
theorem on_event_filter_witness :
    on_event (Event.agentStateChanged "" AgentState.INIT) "agent" =
      [Event.to_dict (Event.agentStateChanged "" AgentState.INIT)] ∧
    on_event (Event.agentStateChanged "" AgentState.INIT) "user" = [] :=
  ⟨on_event_filter.2.1 (Event.agentStateChanged "" AgentState.INIT)
      (fun hh => Event.noConfusion hh) (fun hh => Event.noConfusion hh),
   on_event_filter.2.2 (Event.agentStateChanged "" AgentState.INIT) "user"
      (by decide)⟩

/-- The session fields `AgentUnit.close` reads: whether an agent task is in
flight and the controller handle. -/
structure SessionState where
  agent_task : Bool
  controller : Option AgentState
deriving DecidableEq, Repr

/-- The external requests one `close()` call issues: cancellation requests to
the in-flight agent task and `close()` calls on the controller's sandbox. -/
structure CloseOut where
  cancels : Nat
  sandboxCloses : Nat
deriving DecidableEq, Repr

/-- `AgentUnit.close`: cancel the agent task if one exists, close the
controller's sandbox if a controller exists. Neither handle is cleared, so
the session fields are returned unchanged alongside the issued requests. -/
def close (st : SessionState) : SessionState × CloseOut :=
  (st,
   { cancels := if st.agent_task then 1 else 0,
     sandboxCloses := if st.controller.isSome then 1 else 0 })

/-- Counterexample to claim C8: on a session with a live controller and an
in-flight task, a second `close()` call issues another cancellation request
and another sandbox `close()` — the handles are never cleared — so the second
call is not free of further effect. -/
theorem close_second_call_cex :
    (close (close ⟨true, some AgentState.RUNNING⟩).1).2 =
      { cancels := 1, sandboxCloses := 1 } := rfl

/-- Claim C8 (amended): each `close()` call on a session with a live
controller (resp. an in-flight task) issues exactly one sandbox release
(resp. one cancellation request) per call; the session fields are unchanged,
so a second call issues the same requests again; and `close()` with no
controller and no task issues nothing and is not an error. -/
theorem close_per_call (st : SessionState) :
    (close st).1 = st ∧
    (st.controller.isSome → (close st).2.sandboxCloses = 1) ∧
    (st.agent_task = true → (close st).2.cancels = 1) ∧
    (close ((close st).1)).2 = (close st).2 ∧
    (st.agent_task = false → st.controller = none →
      (close st).2 = { cancels := 0, sandboxCloses := 0 }) := by
  refine ⟨rfl, fun h => ?_, fun h => ?_, rfl, fun h1 h2 => ?_⟩
  · simp [close, h]
  · simp [close, h]
  · simp [close, h1, h2]

/-- Witness for C8: a live session's single `close()` issues one request of
each kind, and an empty session's `close()` issues none. -/
theorem close_per_call_witness :
    (close ⟨true, some AgentState.RUNNING⟩).2.sandboxCloses = 1 ∧
    (close ⟨true, some AgentState.RUNNING⟩).2.cancels = 1 ∧
    (close ⟨false, none⟩).2 = { cancels := 0, sandboxCloses := 0 } :=
  ⟨(close_per_call ⟨true, some AgentState.RUNNING⟩).2.1 rfl,
   (close_per_call ⟨true, some AgentState.RUNNING⟩).2.2.1 rfl,
   (close_per_call ⟨false, none⟩).2.2.2.2 rfl rfl⟩

/-- Configuration keys read during controller bootstrap. Modelled from the
spec: the recognized INIT args keys and the base-URL key (the config schema
module is not among the sources in scope). -/
inductive ConfigType
  | AGENT
  | LLM_MODEL
  | LLM_API_KEY
  | LLM_BASE_URL
  | MAX_ITERATIONS
  | MAX_CHARS
deriving DecidableEq, Repr

/-- The `args` dict of a start event: a finite mapping from recognized keys
to string values (Python dict keys are unique, hence a function model). -/
abbrev ArgMap := ConfigType → Option String

/-- The dict comprehension in `create_controller`: remove entries whose value
is the empty string. -/
def dropEmpty (raw : ArgMap) : ArgMap := fun k =>
  match raw k with
  | some v => if v = "" then none else some v
  | none => none

/-- `AgentUnit.get_arg_or_default`: `_args.get(key, config.get(key))` — the
request's value when the key is present, else the process-wide default. -/
def get_arg_or_default (_args : ArgMap) (cfg : ConfigType → String)
    (key : ConfigType) : String :=
  match _args key with
  | some v => v
  | none => cfg key

/-- The parameters `create_controller` resolves before construction
(`max_iterations` and `max_chars` still as strings; `int(...)` happens inside
the construction expression). -/
structure ResolvedParams where
  agent_cls : String
  model : String
  api_key : String
  api_base : String
  max_iterations : String
  max_chars : String
deriving DecidableEq, Repr

/-- The resolution prefix of `AgentUnit.create_controller`: drop empty-string
args, resolve each parameter with `get_arg_or_default`, and take the base URL
from configuration only. -/
def resolve_params (raw : ArgMap) (cfg : ConfigType → String) : ResolvedParams :=
  let args := dropEmpty raw
  { agent_cls := get_arg_or_default args cfg ConfigType.AGENT,
    model := get_arg_or_default args cfg ConfigType.LLM_MODEL,
    api_key := get_arg_or_default args cfg ConfigType.LLM_API_KEY,
    api_base := cfg ConfigType.LLM_BASE_URL,
    max_iterations := get_arg_or_default args cfg ConfigType.MAX_ITERATIONS,
    max_chars := get_arg_or_default args cfg ConfigType.MAX_CHARS }

/-- The resolved parameter a bootstrap key selects. -/
def ResolvedParams.field (p : ResolvedParams) : ConfigType → String
  | .AGENT => p.agent_cls
  | .LLM_MODEL => p.model
  | .LLM_API_KEY => p.api_key
  | .LLM_BASE_URL => p.api_base
  | .MAX_ITERATIONS => p.max_iterations
  | .MAX_CHARS => p.max_chars

/-- Claim C6: controller bootstrap drops every args entry whose value is the
empty string, resolves agent class, model, API key, max_iterations and
max_chars as the per-request value when present and non-empty, else the
configuration default, and resolves the LLM base URL from configuration only,
never from args. -/
theorem resolve_params_spec (raw : ArgMap) (cfg : ConfigType → String) :
    (∀ k v, k ≠ ConfigType.LLM_BASE_URL → raw k = some v → v ≠ "" →
      (resolve_params raw cfg).field k = v) ∧
    (∀ k, k ≠ ConfigType.LLM_BASE_URL → (raw k = none ∨ raw k = some "") →
      (resolve_params raw cfg).field k = cfg k) ∧
    (∀ raw2 : ArgMap, (resolve_params raw2 cfg).api_base =
      cfg ConfigType.LLM_BASE_URL) := by
  refine ⟨fun k v hk hv hne => ?_, fun k hk hcase => ?_, fun raw2 => rfl⟩
  · cases k <;>
      first
        | exact absurd rfl hk
        | simp [resolve_params, dropEmpty, get_arg_or_default,
            ResolvedParams.field, hv, hne]
  · rcases hcase with hc | hc <;> cases k <;>
      first
        | exact absurd rfl hk
        | simp [resolve_params, dropEmpty, get_arg_or_default,
            ResolvedParams.field, hc]

/-- Witness for C6: args providing agent "X" and an empty-string model yield
agent "X", the configured default model, and the configured base URL. -/
theorem resolve_params_spec_witness :
    (resolve_params
        (fun k => match k with
          | ConfigType.AGENT => some "X"
          | ConfigType.LLM_MODEL => some ""
          | _ => none)
        (fun _ => "default")).field ConfigType.AGENT = "X" ∧
    (resolve_params
        (fun k => match k with
          | ConfigType.AGENT => some "X"
          | ConfigType.LLM_MODEL => some ""
          | _ => none)
        (fun _ => "default")).field ConfigType.LLM_MODEL = "default" ∧
    (resolve_params
        (fun k => match k with
          | ConfigType.AGENT => some "X"
          | ConfigType.LLM_MODEL => some ""
          | _ => none)
        (fun _ => "default")).api_base = "default" :=
  ⟨(resolve_params_spec (fun k => match k with
        | ConfigType.AGENT => some "X"
        | ConfigType.LLM_MODEL => some ""
        | _ => none) (fun _ => "default")).1
      ConfigType.AGENT "X" (by decide) rfl (by decide),
   (resolve_params_spec (fun k => match k with
        | ConfigType.AGENT => some "X"
        | ConfigType.LLM_MODEL => some ""
        | _ => none) (fun _ => "default")).2.1
      ConfigType.LLM_MODEL (by decide) (Or.inr rfl),
   (resolve_params_spec (fun k => match k with
        | ConfigType.AGENT => some "X"
        | ConfigType.LLM_MODEL => some ""
        | _ => none) (fun _ => "default")).2.2
      (fun k => match k with
        | ConfigType.AGENT => some "X"
        | ConfigType.LLM_MODEL => some ""
        | _ => none)⟩

/-- The observable outcome of one `create_controller` call: any exception
escaping the call, the controller handle afterwards, the error messages sent
to the client, and the events published on the EventStream. -/
structure CreateOut where
  uncaught : Option String
  controller : Option AgentState
  errors : List String
  events : List Published
deriving Repr

/-- The user-facing error of the controller-construction failure branch. -/
def controllerErrorMsg : String :=
  "Error creating controller. Please check Docker is running and visit `https://opendevin.github.io/OpenDevin/modules/usage/troubleshooting` for more debugging information.."

/-- `AgentUnit.init_done`: with no controller, send "No agent started.";
otherwise publish `AgentStateChanged(INIT)` with source "user". Result:
(events published, errors sent). -/
def init_done (controller : Option AgentState) : List Published × List String :=
  match controller with
  | none => ([], ["No agent started."])
  | some _ => ([(Event.agentStateChanged "" AgentState.INIT, "user")], [])

/-- `AgentUnit.create_controller(start_event)`. `raw` is the `args` mapping
of the start event and `ctrl0` the controller handle before the call. The
external constructors are parameters: `llm model api_key api_base` models
`LLM(...)` — which the source calls OUTSIDE the try block — and
`mkController` models the whole guarded construction expression
(`Agent.get_cls`, agent instantiation, the `int(...)` conversions and
`AgentController(...)`), returning the new controller's state or the raised
exception. -/
def create_controller (ctrl0 : Option AgentState) (raw : ArgMap)
    (cfg : ConfigType → String)
    (llm : String → String → String → Except String Unit)
    (mkController : ResolvedParams → Except String AgentState) : CreateOut :=
  let p := resolve_params raw cfg
  match llm p.model p.api_key p.api_base with
  | .error e =>
    { uncaught := some e, controller := ctrl0, errors := [], events := [] }
  | .ok _ =>
    match mkController p with
    | .error _ =>
      { uncaught := none, controller := ctrl0,
        errors := [controllerErrorMsg], events := [] }
    | .ok c =>
      let done := init_done (some c)
      { uncaught := none, controller := some c,
        errors := done.2, events := done.1 }

/-- Counterexample to claim C4: an exception raised while constructing the
LLM client is NOT caught inside `create_controller` — the `LLM(...)` call
stands outside the try block — so it escapes with no error reported to the
client. -/
theorem create_controller_llm_cex :
    create_controller none (fun _ => none) (fun _ => "cfg")
        (fun _ _ _ => .error "llm construction failed")
        (fun _ => .ok AgentState.INIT) =
      { uncaught := some "llm construction failed", controller := none,
        errors := [], events := [] } := rfl

/-- Claim C4 (amended): any exception raised while resolving or instantiating
the agent and constructing the Controller is caught inside
`create_controller`: exactly one user-facing error is reported, the
controller handle is unchanged (the session stays without a Controller), no
state-changed event is published, and nothing escapes. An exception from the
LLM client constructor, however, escapes the call uncaught. -/
theorem create_controller_failure (ctrl0 : Option AgentState) (raw : ArgMap)
    (cfg : ConfigType → String)
    (llm : String → String → String → Except String Unit)
    (mkController : ResolvedParams → Except String AgentState) (e : String)
    (hok : llm (resolve_params raw cfg).model (resolve_params raw cfg).api_key
      (resolve_params raw cfg).api_base = .ok ())
    (hfail : mkController (resolve_params raw cfg) = .error e) :
    create_controller ctrl0 raw cfg llm mkController =
      { uncaught := none, controller := ctrl0,
        errors := [controllerErrorMsg], events := [] } := by
  simp [create_controller, hok, hfail]

/-- Witness for C4: a failing controller constructor is caught — one error
sent, no controller, no event, no escaping exception. -/
theorem create_controller_failure_witness :
    create_controller none (fun _ => none) (fun _ => "cfg")
        (fun _ _ _ => .ok ()) (fun _ => .error "boom") =
      { uncaught := none, controller := none,
        errors := [controllerErrorMsg], events := [] } :=
  create_controller_failure none (fun _ => none) (fun _ => "cfg")
    (fun _ _ _ => .ok ()) (fun _ => .error "boom") "boom" rfl rfl

end OpenDevin
